import Mathlib

/-!
Verification of the trading decision and order-dispatch core of the
repository (Backtrader strategy `MyStrategy` / `FailoverStrategy` in
`strategies/my_strategy.py` and Freqtrade strategy `MyCryptoStrategy` in
`strategies/my_crypto_strategy.py`).

Shallow embedding conventions:
- prices, indicator values and cash are rationals (`ℚ`);
- wall-clock time is hour/minute (the Python code compares `datetime.time`
  values at second granularity, but both forbidden-window checks only
  involve whole minutes);
- the indicator values (EMAs, RSI, its EMAs, SuperTrend) are computed by
  external libraries (`bt.indicators`, `talib`, `pandas_ta`) and enter the
  strategy code as opaque per-bar numbers, so they are modelled as inputs;
- Python `int()` truncates toward zero, modelled by `truncQ`;
- a Python function that can raise an uncaught exception is modelled with
  `Option`, `none` being the exception.
-/

namespace Trading

/-- Wall-clock time of a bar, hour and minute. -/
structure HMTime where
  hour : ℕ
  minute : ℕ
deriving DecidableEq, Repr

/-- Minutes since midnight. -/
def HMTime.toMinutes (t : HMTime) : ℕ := 60 * t.hour + t.minute

/-- Python `int()` applied to a rational: truncation toward zero. -/
def truncQ (q : ℚ) : ℤ := if 0 ≤ q then ⌊q⌋ else ⌈q⌉

namespace MyStrategy

/-- Strategy parameters of `MyStrategy` (the `params` tuple); only the
fields read by the methods under verification are carried.
`rsi_ema_slow` is the period 100, which `next` also uses as the minimum
bar-history length. -/
structure Params where
  rsi_long : ℚ
  rsi_short : ℚ
  commission_rate : ℚ
  leverage : ℚ
  rsi_ema_slow : ℕ
deriving DecidableEq, Repr

/-- The default parameter values from the `params` tuple. -/
def defaultParams : Params :=
  { rsi_long := 60, rsi_short := 40, commission_rate := 1/10000,
    leverage := 9, rsi_ema_slow := 100 }

/-- One bar of the data feed as read by `next`: wall-clock time, OHLC,
the previous bars' fields it indexes (`high[-1]`, `low[-1]`, `close[-1]`,
`close[-2]`) and volume. -/
structure BarData where
  time : HMTime
  opn : ℚ
  high : ℚ
  low : ℚ
  close : ℚ
  prevHigh : ℚ
  prevLow : ℚ
  prevClose : ℚ
  prev2Close : ℚ
  volume : ℚ
deriving DecidableEq, Repr

/-- Current values of the indicator lines `next` reads; produced by
`bt.indicators` (external), consumed read-only. -/
structure Snapshot where
  ema05 : ℚ
  ema5 : ℚ
  ema20 : ℚ
  rsi14 : ℚ
  rsi_ema_veryfast : ℚ
  rsi_ema_fast : ℚ
  rsi_ema_slow : ℚ
  supertrend : ℚ
deriving DecidableEq, Repr

/-- The mutable strategy state `next` consults: pending-order flag
(`self.order`), position size (`self.position.size`, signed), recorded
entry price (`self.entry_price`), bar count (`len(self)`) and broker cash
(`self.broker.getcash()`). -/
structure State where
  order : Bool
  posSize : ℤ
  entry : ℚ
  barsSeen : ℕ
  cash : ℚ
deriving DecidableEq, Repr

/-- The externally visible effect of one `next` call. -/
inductive Action where
  | skip : Action
  | enterBuy : ℤ → Action
  | enterSell : ℤ → Action
  | closePosition : Action
deriving DecidableEq, Repr

/-- `rsi_bullish` of `next`. -/
def rsi_bullish (snap : Snapshot) : Bool :=
  decide (snap.rsi_ema_slow > 50 ∧
    snap.rsi_ema_veryfast > snap.rsi_ema_fast ∧
    snap.rsi_ema_fast > snap.rsi_ema_slow)

/-- `rsi_bearish` of `next`. -/
def rsi_bearish (snap : Snapshot) : Bool :=
  decide (snap.rsi_ema_slow < 40 ∧
    snap.rsi_ema_veryfast < snap.rsi_ema_fast ∧
    snap.rsi_ema_fast < snap.rsi_ema_slow)

/-- `long_signal` of `next`. -/
def long_signal (p : Params) (b : BarData) (snap : Snapshot) : Bool :=
  decide (snap.ema5 > snap.ema20 ∧
    snap.ema05 > snap.ema5 ∧
    snap.rsi14 > p.rsi_long ∧
    b.close > b.prevHigh ∧
    b.prevClose > b.prev2Close ∧
    b.close > b.opn) && rsi_bullish snap

/-- `short_signal` of `next`. -/
def short_signal (p : Params) (b : BarData) (snap : Snapshot) : Bool :=
  decide (snap.ema5 < snap.ema20 ∧
    snap.ema05 < snap.ema5 ∧
    snap.rsi14 < p.rsi_short ∧
    b.close < b.prevLow ∧
    b.prevClose < b.prev2Close ∧
    b.close < b.opn) && rsi_bearish snap

/-- `calculate_position_size`: `int(cash * leverage / price)`.
Python raises `ZeroDivisionError` when `price = 0`, modelled as `none`. -/
def calculate_position_size (cash price leverage : ℚ) : Option ℤ :=
  if price = 0 then none else some (truncQ (cash * leverage / price))

/-- `is_profitable_exit`: commission-aware gate on the SuperTrend exit.
Returns `False` when flat; otherwise computes gross profit by position
direction, the commission `rate * (entry + current) * size`, and tests
`net_profit > 0`. -/
def is_profitable_exit (p : Params) (posSize : ℤ) (entry current : ℚ) : Bool :=
  if posSize = 0 then false
  else
    let size : ℚ := |(posSize : ℚ)|
    let gross : ℚ := if 0 < posSize then (current - entry) * size
                     else (entry - current) * size
    let commission : ℚ := p.commission_rate * (entry + current) * size
    decide (gross - commission > 0)

/-- `MyStrategy.next`, one call per candle.  Returns `none` only when the
Python body would raise (division by zero in the sizing call); otherwise
`some` of the action taken.  Mirrors the source order of checks: pending
order, warm-up (`len(self) < rsi_ema_slow`), forbidden window
9:15 ≤ t < 10:00, then entry logic when flat and SuperTrend exit logic
when in a position. -/
def next (p : Params) (s : State) (b : BarData) (snap : Snapshot) :
    Option Action :=
  if s.order then some .skip
  else if s.barsSeen < p.rsi_ema_slow then some .skip
  else if 555 ≤ b.time.toMinutes ∧ b.time.toMinutes < 600 then some .skip
  else if s.posSize = 0 then
    if long_signal p b snap then
      match calculate_position_size s.cash b.close p.leverage with
      | some n => some (.enterBuy n)
      | none => none
    else if short_signal p b snap then
      match calculate_position_size s.cash b.close p.leverage with
      | some n => some (.enterSell n)
      | none => none
    else some .skip
  else if 0 < s.posSize then
    if b.close < snap.supertrend then
      if is_profitable_exit p s.posSize s.entry b.close then
        some .closePosition
      else some .skip
    else some .skip
  else
    if b.close > snap.supertrend then
      if is_profitable_exit p s.posSize s.entry b.close then
        some .closePosition
      else some .skip
    else some .skip

end MyStrategy

namespace MyCryptoStrategy

/-- One row of the analyzed dataframe of `MyCryptoStrategy` after
`populate_indicators`: OHLCV plus the indicator columns and the shifted
previous-candle columns. `supertrend_direction` is the ±1 flag. -/
structure Row where
  opn : ℚ
  high : ℚ
  low : ℚ
  close : ℚ
  volume : ℚ
  ema05 : ℚ
  ema5 : ℚ
  ema20 : ℚ
  rsi14 : ℚ
  rsi_ema_veryfast : ℚ
  rsi_ema_fast : ℚ
  rsi_ema_slow : ℚ
  supertrend : ℚ
  supertrend_direction : ℤ
  prev_high : ℚ
  prev_low : ℚ
  prev_close : ℚ
  prev2_close : ℚ
deriving DecidableEq, Repr

/-- Class attribute `rsi_long = 60.0`. -/
def rsi_long : ℚ := 60

/-- Class attribute `rsi_short = 40.0`. -/
def rsi_short : ℚ := 40

/-- Column `rsi_bullish` computed in `populate_indicators`. -/
def rsi_bullish (r : Row) : Bool :=
  decide (r.rsi_ema_slow > 50 ∧
    r.rsi_ema_veryfast > r.rsi_ema_fast ∧
    r.rsi_ema_fast > r.rsi_ema_slow)

/-- Column `rsi_bearish` computed in `populate_indicators`. -/
def rsi_bearish (r : Row) : Bool :=
  decide (r.rsi_ema_slow < 40 ∧
    r.rsi_ema_veryfast < r.rsi_ema_fast ∧
    r.rsi_ema_fast < r.rsi_ema_slow)

/-- Column `bull_candle`. -/
def bull_candle (r : Row) : Bool := decide (r.close > r.opn)

/-- Column `bear_candle`. -/
def bear_candle (r : Row) : Bool := decide (r.close < r.opn)

/-- The long-entry mask of `populate_entry_trend`: EMA alignment, RSI
condition, price action, RSI momentum, and `volume > 0`. -/
def enter_long (r : Row) : Bool :=
  decide (r.ema5 > r.ema20 ∧
    r.ema05 > r.ema5 ∧
    r.rsi14 > rsi_long ∧
    r.close > r.prev_high ∧
    r.prev_close > r.prev2_close) &&
  bull_candle r && rsi_bullish r && decide (r.volume > 0)

/-- The short-entry mask of `populate_entry_trend`. -/
def enter_short (r : Row) : Bool :=
  decide (r.ema5 < r.ema20 ∧
    r.ema05 < r.ema5 ∧
    r.rsi14 < rsi_short ∧
    r.close < r.prev_low ∧
    r.prev_close < r.prev2_close) &&
  bear_candle r && rsi_bearish r && decide (r.volume > 0)

/-- The fixed threshold `min_profit_threshold = 0.0015` hard-coded in
`custom_exit` ("0.15% to cover commissions"). -/
def min_profit_threshold : ℚ := 15/10000

/-- `custom_exit`: returns the exit tag when `current_profit` (a profit
ratio supplied by the framework) exceeds the fixed threshold and the last
candle shows a SuperTrend reversal against the position; otherwise
`none`. -/
def custom_exit (is_long : Bool) (current_profit : ℚ)
    (lastClose lastSupertrend : ℚ) (stDir : ℤ) : Option String :=
  if current_profit > min_profit_threshold then
    if is_long then
      if lastClose < lastSupertrend ∧ stDir = -1 then
        some "supertrend_profitable_exit"
      else none
    else
      if lastClose > lastSupertrend ∧ stDir = 1 then
        some "supertrend_profitable_exit"
      else none
  else none

/-- `confirm_trade_entry`: rejects an entry whose wall-clock time is in
the forbidden window — the source tests
`(hour == 9 and minute >= 15) or (hour == 10 and minute == 0)`. -/
def confirm_trade_entry (t : HMTime) : Bool :=
  if (t.hour = 9 ∧ 15 ≤ t.minute) ∨ (t.hour = 10 ∧ t.minute = 0) then
    false
  else true

end MyCryptoStrategy

namespace FailoverStrategy

/-- The failover parameters added by `FailoverStrategy.params`. -/
structure FParams where
  primary_broker : String
  backup_broker : String
  max_retries : ℕ
deriving DecidableEq, Repr

/-- Outcome of one `place_bracket_order_openalgo` dispatch: the returned
response (`some orderid` for a success response, `none` for the Python
`None` the method returns on failure), the number of adapter calls made
(calls of the base-class order method), and the final value of the shared
`openalgo_client.broker` attribute the method assigns. -/
structure DispatchResult where
  response : Option ℕ
  calls : ℕ
  clientBroker : String
deriving DecidableEq, Repr

/-- The primary-broker retry loop: attempts `prim i`, `prim (i+1)`, … for
`n` iterations, short-circuiting on the first success response.  Each
attempt is one adapter call; a `none` attempt models both a failure
response and a raised exception (the source treats both by continuing the
loop).  Returns the success response, if any, and the number of calls
made. -/
def primPhase (prim : ℕ → Option ℕ) : ℕ → ℕ → Option ℕ × ℕ
  | _, 0 => (none, 0)
  | i, n + 1 =>
    match prim i with
    | some oid => (some oid, 1)
    | none =>
      let r := primPhase prim (i + 1) n
      (r.1, r.2 + 1)

/-- `FailoverStrategy.place_bracket_order_openalgo`: try the primary
broker for `max_retries` attempts (assigning `client.broker :=
primary_broker` before each), returning the first success response; then
assign `client.broker := backup_broker` and make a single backup attempt,
returning its response on success and `None` otherwise.  `broker0` is the
value of the shared `openalgo_client.broker` attribute before the call;
the result records its value after the call. -/
def dispatch (p : FParams) (prim : ℕ → Option ℕ) (back : Option ℕ)
    (_broker0 : String) : DispatchResult :=
  match primPhase prim 0 p.max_retries with
  | (some oid, c) => ⟨some oid, c, p.primary_broker⟩
  | (none, c) =>
    match back with
    | some oid => ⟨some oid, c + 1, p.backup_broker⟩
    | none => ⟨none, c + 1, p.backup_broker⟩

end FailoverStrategy

/-- Modelled from the spec's words (the commission-aware gate of §4.2),
for comparison with the code's `is_profitable_exit`: gross = (c − e)·q
for a long position and (e − c)·q for a short one; commission =
r·(e + c)·q; net = gross − commission. -/
def specNet (e c q r : ℚ) (isLong : Bool) : ℚ :=
  (if isLong then (c - e) * q else (e - c) * q) - r * (e + c) * q

/-- C1 (amended): for the Backtrader strategy, with a position open
(`posSize ≠ 0`), the commission-aware gate `is_profitable_exit` allows
the SuperTrend exit exactly when the spec's net profit — gross minus the
commission `r·(entry + current)·size` computed from the actual prices —
is positive. -/
theorem c1_commission_gate (p : MyStrategy.Params) (posSize : ℤ)
    (entry current : ℚ) (h : posSize ≠ 0) :
    MyStrategy.is_profitable_exit p posSize entry current = true ↔
      0 < specNet entry current |(posSize : ℚ)| p.commission_rate
            (decide (0 < posSize)) := by
  unfold MyStrategy.is_profitable_exit specNet
  rw [if_neg h]
  by_cases hpos : 0 < posSize
  · simp only [decide_eq_true_eq, if_pos hpos, gt_iff_lt]
  · simp only [decide_eq_true_eq, if_neg hpos, gt_iff_lt]

/-- Witness for `c1_commission_gate` at a long position of size 1 entered
at 100 with current price 101 and the default commission rate. -/
theorem c1_commission_gate_witness :
    (1 : ℤ) ≠ 0 ∧
      (MyStrategy.is_profitable_exit MyStrategy.defaultParams 1 100 101 = true ↔
        0 < specNet 100 101 |((1 : ℤ) : ℚ)|
              MyStrategy.defaultParams.commission_rate (decide ((0:ℤ) < 1))) :=
  ⟨by decide, c1_commission_gate MyStrategy.defaultParams 1 100 101 (by decide)⟩

/-- C1 counterexample: the claim is false for the crypto strategy's
`custom_exit`, the second function it names.  At entry 100, current price
100.1, quantity 1 and commission rate 0.0001 the spec's net profit is
0.1 − 0.0001·200.1 = 0.07999 > 0, so the claim says the SuperTrend exit
is allowed; but `custom_exit` blocks it (returns `none`) even though the
SuperTrend reversal holds (close 100.1 below band 200, direction −1),
because the profit ratio 0.001 does not clear its fixed threshold
0.0015. -/
theorem c1_counterexample :
    MyCryptoStrategy.custom_exit true (1/1000) (1001/10) 200 (-1) = none ∧
      0 < specNet 100 (1001/10) 1 (1/10000) true := by
  constructor
  · have hth : ¬((1:ℚ)/1000 > MyCryptoStrategy.min_profit_threshold) := by
      norm_num [MyCryptoStrategy.min_profit_threshold]
    unfold MyCryptoStrategy.custom_exit
    rw [if_neg hth]
  · norm_num [specNet]

/-- C4: the sizing calculator is `floor(cash × leverage / price)` on its
operating domain (non-negative cash and leverage, positive price) — Python
`int()` truncates toward zero, which coincides with floor there — and at
cash 200000, price 65432, leverage 8 it returns 24. -/
theorem c4_sizing (cash price leverage : ℚ) (hc : 0 ≤ cash) (hp : 0 < price)
    (hl : 0 ≤ leverage) :
    MyStrategy.calculate_position_size cash price leverage =
        some ⌊cash * leverage / price⌋ ∧
      MyStrategy.calculate_position_size 200000 65432 8 = some 24 := by
  constructor
  · unfold MyStrategy.calculate_position_size truncQ
    rw [if_neg (ne_of_gt hp),
      if_pos (div_nonneg (mul_nonneg hc hl) (le_of_lt hp))]
  · unfold MyStrategy.calculate_position_size truncQ
    have h1 : ¬((65432 : ℚ) = 0) := by norm_num
    have h2 : (0:ℚ) ≤ 200000 * 8 / 65432 := by norm_num
    rw [if_neg h1, if_pos h2]
    norm_num

/-- Witness for `c4_sizing` at cash 200000, price 65432, leverage 8. -/
theorem c4_sizing_witness :
    (0:ℚ) ≤ 200000 ∧ (0:ℚ) < 65432 ∧ (0:ℚ) ≤ 8 ∧
      (MyStrategy.calculate_position_size 200000 65432 8 =
          some ⌊(200000 : ℚ) * 8 / 65432⌋ ∧
        MyStrategy.calculate_position_size 200000 65432 8 = some 24) :=
  ⟨by decide, by decide, by decide,
    c4_sizing 200000 65432 8 (by decide) (by decide) (by decide)⟩

/-- C5 counterexample: the sizing calculator does not fail gracefully on
degenerate input.  With cash = −100 (≤ 0), price 51 and leverage 9 it
returns the truncated quotient −17, not zero, and `next` would pass that
size to an order; with price = 0 the Python body raises
`ZeroDivisionError` (modelled `none`), i.e. a crash rather than a
no-op. -/
theorem c5_counterexample :
    MyStrategy.calculate_position_size (-100) 51 9 ≠ some 0 ∧
      MyStrategy.calculate_position_size 100 0 9 = none := by
  constructor
  · unfold MyStrategy.calculate_position_size truncQ
    have h1 : ¬((51 : ℚ) = 0) := by norm_num
    have h2 : ¬((0:ℚ) ≤ (-100) * 9 / 51) := by norm_num
    rw [if_neg h1, if_neg h2]
    have h3 : ⌈((-100) : ℚ) * 9 / 51⌉ = -17 := by
      norm_num [Int.ceil_eq_iff]
    rw [h3]
    decide
  · unfold MyStrategy.calculate_position_size
    rw [if_pos rfl]

/-- C5 (amended): `calculate_position_size` has no degenerate-input
guard: price = 0 raises a division-by-zero error (modelled `none`), and
non-positive cash with a positive price yields the quotient truncated
toward zero — e.g. −17 at cash −100, price 51, leverage 9 — which is not
the claimed zero / no-op. -/
theorem c5_no_degenerate_guard :
    (∀ cash leverage : ℚ,
        MyStrategy.calculate_position_size cash 0 leverage = none) ∧
      MyStrategy.calculate_position_size (-100) 51 9 = some (-17) := by
  constructor
  · intro cash leverage
    unfold MyStrategy.calculate_position_size
    rw [if_pos rfl]
  · unfold MyStrategy.calculate_position_size truncQ
    have h1 : ¬((51 : ℚ) = 0) := by norm_num
    have h2 : ¬((0:ℚ) ≤ (-100) * 9 / 51) := by norm_num
    rw [if_neg h1, if_neg h2]
    norm_num [Int.ceil_eq_iff]

/-- If every primary attempt in the window fails, the retry loop makes
exactly `n` calls and reports no success. -/
theorem primPhase_all_none (prim : ℕ → Option ℕ) :
    ∀ n i, (∀ k, k < n → prim (i + k) = none) →
      FailoverStrategy.primPhase prim i n = (none, n) := by
  intro n
  induction n with
  | zero => intro i _; rfl
  | succ m ih =>
    intro i h
    have h0 : prim i = none := by
      have := h 0 (Nat.succ_pos m)
      rwa [Nat.add_zero] at this
    have hrest : FailoverStrategy.primPhase prim (i + 1) m = (none, m) := by
      refine ih (i + 1) (fun k hk => ?_)
      have := h (k + 1) (Nat.succ_lt_succ hk)
      rwa [show i + (k + 1) = i + 1 + k by omega] at this
    unfold FailoverStrategy.primPhase
    rw [h0]
    simp [hrest]

/-- If the first success among the primary attempts is at index `j < n`,
the retry loop short-circuits there after `j + 1` calls. -/
theorem primPhase_first_some (prim : ℕ → Option ℕ) :
    ∀ n i j oid, j < n → (∀ k, k < j → prim (i + k) = none) →
      prim (i + j) = some oid →
      FailoverStrategy.primPhase prim i n = (some oid, j + 1) := by
  intro n
  induction n with
  | zero => intro i j oid hj _ _; exact absurd hj (Nat.not_lt_zero j)
  | succ m ih =>
    intro i j oid hj hfail hsucc
    cases j with
    | zero =>
      rw [Nat.add_zero] at hsucc
      unfold FailoverStrategy.primPhase
      rw [hsucc]
    | succ j' =>
      have h0 : prim i = none := by
        have := hfail 0 (Nat.succ_pos j')
        rwa [Nat.add_zero] at this
      have hrest : FailoverStrategy.primPhase prim (i + 1) m =
          (some oid, j' + 1) := by
        refine ih (i + 1) j' oid (by omega) (fun k hk => ?_) ?_
        · have := hfail (k + 1) (Nat.succ_lt_succ hk)
          rwa [show i + (k + 1) = i + 1 + k by omega] at this
        · rwa [show i + (j' + 1) = i + 1 + j' by omega] at hsucc
      unfold FailoverStrategy.primPhase
      rw [h0]
      simp [hrest]

/-- C2: the failover dispatch (a) short-circuits on the first primary
attempt that returns a success response, having made that many calls with
the client pointed at the primary broker, and (b) when all `max_retries`
primary attempts fail and the backup succeeds, returns the backup's
success response after exactly `max_retries + 1` adapter calls. -/
theorem c2_failover_dispatch (p : FailoverStrategy.FParams)
    (prim : ℕ → Option ℕ) (back : Option ℕ) (b0 : String) :
    ((∀ i, i < p.max_retries → prim i = none) → ∀ oid, back = some oid →
        FailoverStrategy.dispatch p prim back b0 =
          ⟨some oid, p.max_retries + 1, p.backup_broker⟩) ∧
      (∀ j oid, j < p.max_retries → (∀ i, i < j → prim i = none) →
        prim j = some oid →
        FailoverStrategy.dispatch p prim back b0 =
          ⟨some oid, j + 1, p.primary_broker⟩) := by
  constructor
  · intro hfail oid hback
    unfold FailoverStrategy.dispatch
    rw [primPhase_all_none prim p.max_retries 0
      (fun k hk => by rw [Nat.zero_add]; exact hfail k hk)]
    rw [hback]
  · intro j oid hj hfail hsucc
    unfold FailoverStrategy.dispatch
    rw [primPhase_first_some prim p.max_retries 0 j oid hj
      (fun k hk => by rw [Nat.zero_add]; exact hfail k hk)
      (by rw [Nat.zero_add]; exact hsucc)]

/-- Witness for `c2_failover_dispatch`: a primary failing all 3 retries
and a backup succeeding first try yield the backup's success after
exactly 4 adapter calls. -/
theorem c2_failover_dispatch_witness :
    FailoverStrategy.dispatch ⟨"angelone", "groww", 3⟩ (fun _ => none)
        (some 42) "angelone" = ⟨some 42, 4, "groww"⟩ :=
  (c2_failover_dispatch ⟨"angelone", "groww", 3⟩ (fun _ => none)
    (some 42) "angelone").1 (fun _ _ => rfl) 42 rfl

/-- C9 counterexample: dispatch does not leave the shared broker
configuration unchanged.  With the shared client's broker field reading
"angelone" (the primary) before the call, a dispatch whose primary
attempts all fail and whose backup succeeds returns with the shared
field rewritten to "groww" — the write persists after the call. -/
theorem c9_counterexample :
    (FailoverStrategy.dispatch ⟨"angelone", "groww", 3⟩ (fun _ => none)
        (some 7) "angelone").clientBroker = "groww" ∧
      ("groww" : String) ≠ "angelone" := by
  constructor
  · rfl
  · decide

/-- C9 (amended): the primary/backup role parameters are never
reassigned (they are read-only inputs of `dispatch`), but the shared
client's active-broker field is rewritten by every dispatch rather than
restored: it ends at `primary_broker` when some primary attempt returned
a success response, and at `backup_broker` whenever the primary phase was
exhausted — regardless of its value before the call. -/
theorem c9_client_broker_rewritten (p : FailoverStrategy.FParams)
    (prim : ℕ → Option ℕ) (back : Option ℕ) (b0 : String) :
    (∀ oid c, FailoverStrategy.primPhase prim 0 p.max_retries = (some oid, c) →
        (FailoverStrategy.dispatch p prim back b0).clientBroker =
          p.primary_broker) ∧
      (∀ c, FailoverStrategy.primPhase prim 0 p.max_retries = (none, c) →
        (FailoverStrategy.dispatch p prim back b0).clientBroker =
          p.backup_broker) := by
  constructor
  · intro oid c hp
    unfold FailoverStrategy.dispatch
    rw [hp]
  · intro c hp
    unfold FailoverStrategy.dispatch
    rw [hp]
    cases back <;> rfl

/-- Witness for `c9_client_broker_rewritten`: with all three primary
attempts failing, the shared broker field ends at the backup "groww". -/
theorem c9_client_broker_rewritten_witness :
    (FailoverStrategy.dispatch ⟨"angelone", "groww", 3⟩ (fun _ => none)
        (some 7) "angelone").clientBroker = "groww" :=
  (c9_client_broker_rewritten ⟨"angelone", "groww", 3⟩ (fun _ => none)
    (some 7) "angelone").2 3 rfl

/-- C3: at most one open position per instrument — whenever the strategy
state is not flat (`posSize ≠ 0`), a `next` call never places an entry
order, whatever the bar and indicator values: it either does nothing or
closes the existing position. -/
theorem c3_single_position (p : MyStrategy.Params) (s : MyStrategy.State)
    (b : MyStrategy.BarData) (snap : MyStrategy.Snapshot)
    (h : s.posSize ≠ 0) :
    MyStrategy.next p s b snap = some .skip ∨
      MyStrategy.next p s b snap = some .closePosition := by
  unfold MyStrategy.next
  by_cases h1 : s.order
  · rw [if_pos h1]; exact Or.inl rfl
  rw [if_neg h1]
  by_cases h2 : s.barsSeen < p.rsi_ema_slow
  · rw [if_pos h2]; exact Or.inl rfl
  rw [if_neg h2]
  by_cases h3 : 555 ≤ b.time.toMinutes ∧ b.time.toMinutes < 600
  · rw [if_pos h3]; exact Or.inl rfl
  rw [if_neg h3, if_neg h]
  by_cases h4 : 0 < s.posSize
  · rw [if_pos h4]
    by_cases h5 : b.close < snap.supertrend
    · rw [if_pos h5]
      by_cases h6 : MyStrategy.is_profitable_exit p s.posSize s.entry b.close
          = true
      · rw [if_pos h6]; exact Or.inr rfl
      · rw [if_neg h6]; exact Or.inl rfl
    · rw [if_neg h5]; exact Or.inl rfl
  · rw [if_neg h4]
    by_cases h5 : b.close > snap.supertrend
    · rw [if_pos h5]
      by_cases h6 : MyStrategy.is_profitable_exit p s.posSize s.entry b.close
          = true
      · rw [if_pos h6]; exact Or.inr rfl
      · rw [if_neg h6]; exact Or.inl rfl
    · rw [if_neg h5]; exact Or.inl rfl

/-- Witness for `c3_single_position`: with a long position of size 3
open, a bar is handled without placing any entry. -/
theorem c3_single_position_witness :
    MyStrategy.next MyStrategy.defaultParams ⟨false, 3, 100, 200, 1000⟩
        ⟨⟨11, 0⟩, 9, 10, 9, 10, 9, 8, 8, 7, 5⟩ ⟨3, 2, 1, 70, 53, 52, 51, 0⟩
        = some .skip ∨
      MyStrategy.next MyStrategy.defaultParams ⟨false, 3, 100, 200, 1000⟩
        ⟨⟨11, 0⟩, 9, 10, 9, 10, 9, 8, 8, 7, 5⟩ ⟨3, 2, 1, 70, 53, 52, 51, 0⟩
        = some .closePosition :=
  c3_single_position MyStrategy.defaultParams ⟨false, 3, 100, 200, 1000⟩
    ⟨⟨11, 0⟩, 9, 10, 9, 10, 9, 8, 8, 7, 5⟩ ⟨3, 2, 1, 70, 53, 52, 51, 0⟩
    (by decide)

/-- C6: a wall-clock time in the forbidden window 9:15–10:00 suppresses
entries regardless of any signal, in both strategies, and in the
Freqtrade strategy the check sits in `confirm_trade_entry`, one layer
above signal evaluation — the entry-signal functions `enter_long` /
`enter_short` take no time input at all, so signal evaluation stays a
pure function of market state. -/
theorem c6_forbidden_window (p : MyStrategy.Params) (s : MyStrategy.State)
    (b : MyStrategy.BarData) (snap : MyStrategy.Snapshot) (t : HMTime)
    (hb1 : 555 ≤ b.time.toMinutes) (hb2 : b.time.toMinutes < 600)
    (ht1 : 555 ≤ t.toMinutes) (ht2 : t.toMinutes < 600)
    (ht3 : t.minute < 60) :
    MyStrategy.next p s b snap = some .skip ∧
      MyCryptoStrategy.confirm_trade_entry t = false := by
  constructor
  · unfold MyStrategy.next
    by_cases h1 : s.order
    · rw [if_pos h1]
    rw [if_neg h1]
    by_cases h2 : s.barsSeen < p.rsi_ema_slow
    · rw [if_pos h2]
    rw [if_neg h2, if_pos ⟨hb1, hb2⟩]
  · have hh : t.hour = 9 := by
      unfold HMTime.toMinutes at ht1 ht2
      omega
    have hm : 15 ≤ t.minute := by
      unfold HMTime.toMinutes at ht1 ht2
      omega
    unfold MyCryptoStrategy.confirm_trade_entry
    rw [if_pos (Or.inl ⟨hh, hm⟩)]

/-- Witness for `c6_forbidden_window` at 9:30, with all long-entry
conditions of the bar true. -/
theorem c6_forbidden_window_witness :
    MyStrategy.next MyStrategy.defaultParams ⟨false, 0, 0, 200, 1000⟩
        ⟨⟨9, 30⟩, 9, 10, 9, 10, 9, 8, 8, 7, 5⟩ ⟨3, 2, 1, 70, 53, 52, 51, 0⟩
        = some .skip ∧
      MyCryptoStrategy.confirm_trade_entry ⟨9, 30⟩ = false :=
  c6_forbidden_window MyStrategy.defaultParams ⟨false, 0, 0, 200, 1000⟩
    ⟨⟨9, 30⟩, 9, 10, 9, 10, 9, 8, 8, 7, 5⟩ ⟨3, 2, 1, 70, 53, 52, 51, 0⟩
    ⟨9, 30⟩ (by decide) (by decide) (by decide) (by decide) (by decide)

/-- C10: inside the forbidden window [9:15, 10:00) the Backtrader per-bar
handler returns before any exit evaluation: even with a long position
open, the close below the SuperTrend band, and the commission gate
passing, no exit order is placed. -/
theorem c10_no_exit_in_window (p : MyStrategy.Params) (s : MyStrategy.State)
    (b : MyStrategy.BarData) (snap : MyStrategy.Snapshot)
    (hb1 : 555 ≤ b.time.toMinutes) (hb2 : b.time.toMinutes < 600)
    (hpos : 0 < s.posSize) (hrev : b.close < snap.supertrend)
    (hgate : MyStrategy.is_profitable_exit p s.posSize s.entry b.close
      = true) :
    MyStrategy.next p s b snap = some .skip := by
  unfold MyStrategy.next
  by_cases h1 : s.order
  · rw [if_pos h1]
  rw [if_neg h1]
  by_cases h2 : s.barsSeen < p.rsi_ema_slow
  · rw [if_pos h2]
  rw [if_neg h2, if_pos ⟨hb1, hb2⟩]

/-- Witness for `c10_no_exit_in_window`: at 9:30 with a long position of
size 2 entered at 100, current close 110 under a SuperTrend band at 200,
the gate passes (net = 20 − 0.042 > 0) yet the bar is skipped. -/
theorem c10_no_exit_in_window_witness :
    MyStrategy.next MyStrategy.defaultParams ⟨false, 2, 100, 150, 1000⟩
        ⟨⟨9, 30⟩, 100, 111, 99, 110, 105, 95, 104, 103, 5⟩
        ⟨1, 1, 1, 1, 1, 1, 1, 200⟩ = some .skip :=
  c10_no_exit_in_window MyStrategy.defaultParams ⟨false, 2, 100, 150, 1000⟩
    ⟨⟨9, 30⟩, 100, 111, 99, 110, 105, 95, 104, 103, 5⟩
    ⟨1, 1, 1, 1, 1, 1, 1, 200⟩ (by decide) (by decide) (by decide)
    (by decide)
    (by
      unfold MyStrategy.is_profitable_exit MyStrategy.defaultParams
      norm_num)

/-- C7 counterexample: in the Backtrader strategy a zero-volume bar does
trigger an entry.  On this bar the volume is 0 while every other long
condition holds (EMA order 3 > 2 > 1, RSI 70 > 60, close 10 above the
previous high 9, previous close 8 above 7, bullish candle 10 > 9, RSI
momentum flags set), and `next` places a buy of
`int(1000 × 9 / 10) = 900`. -/
theorem c7_counterexample :
    MyStrategy.next MyStrategy.defaultParams ⟨false, 0, 0, 100, 1000⟩
        ⟨⟨10, 30⟩, 9, 10, 9, 10, 9, 8, 8, 7, 0⟩ ⟨3, 2, 1, 70, 53, 52, 51, 0⟩
        = some (.enterBuy 900) ∧
      (⟨⟨10, 30⟩, 9, 10, 9, 10, 9, 8, 8, 7, 0⟩ :
        MyStrategy.BarData).volume = 0 := by
  constructor
  · have hlong : MyStrategy.long_signal MyStrategy.defaultParams
        ⟨⟨10, 30⟩, 9, 10, 9, 10, 9, 8, 8, 7, 0⟩
        ⟨3, 2, 1, 70, 53, 52, 51, 0⟩ = true := by
      unfold MyStrategy.long_signal MyStrategy.rsi_bullish
        MyStrategy.defaultParams
      norm_num
    have hsize : MyStrategy.calculate_position_size 1000 10 9 = some 900 := by
      unfold MyStrategy.calculate_position_size truncQ
      have h1 : ¬((10 : ℚ) = 0) := by norm_num
      have h2 : (0:ℚ) ≤ 1000 * 9 / 10 := by norm_num
      rw [if_neg h1, if_pos h2]
      norm_num
    unfold MyStrategy.next
    rw [if_neg (by decide : ¬(false = true))]
    rw [if_neg (by decide : ¬((100:ℕ) < MyStrategy.defaultParams.rsi_ema_slow))]
    rw [if_neg (by decide :
      ¬(555 ≤ HMTime.toMinutes ⟨10, 30⟩ ∧ HMTime.toMinutes ⟨10, 30⟩ < 600))]
    rw [if_pos (by decide : ((0:ℤ) = 0))]
    rw [if_pos hlong]
    have hsize' : MyStrategy.calculate_position_size
        (⟨false, 0, 0, 100, 1000⟩ : MyStrategy.State).cash
        ((⟨⟨10, 30⟩, 9, 10, 9, 10, 9, 8, 8, 7, 0⟩ :
          MyStrategy.BarData)).close
        MyStrategy.defaultParams.leverage = some 900 := hsize
    rw [hsize']
  · rfl

/-- C7 (amended): the Freqtrade strategy's entry masks require strictly
positive volume — any row with `enter_long` or `enter_short` set has
volume > 0 — but the Backtrader strategy's signals check no volume, so a
zero-volume bar can place an entry there (see the counterexample). -/
theorem c7_crypto_entries_need_volume (r : MyCryptoStrategy.Row)
    (h : MyCryptoStrategy.enter_long r = true ∨
      MyCryptoStrategy.enter_short r = true) :
    0 < r.volume := by
  rcases h with h | h
  · unfold MyCryptoStrategy.enter_long at h
    simp only [Bool.and_eq_true, decide_eq_true_eq] at h
    exact h.2
  · unfold MyCryptoStrategy.enter_short at h
    simp only [Bool.and_eq_true, decide_eq_true_eq] at h
    exact h.2

/-- Witness for `c7_crypto_entries_need_volume`: a row satisfying the
long-entry mask, whose volume is indeed positive. -/
theorem c7_crypto_entries_need_volume_witness :
    (MyCryptoStrategy.enter_long
          ⟨9, 10, 9, 10, 1, 3, 2, 1, 70, 53, 52, 51, 0, 1, 9, 8, 8, 7⟩ = true ∨
        MyCryptoStrategy.enter_short
          ⟨9, 10, 9, 10, 1, 3, 2, 1, 70, 53, 52, 51, 0, 1, 9, 8, 8, 7⟩ = true) ∧
      0 < (⟨9, 10, 9, 10, 1, 3, 2, 1, 70, 53, 52, 51, 0, 1, 9, 8, 8, 7⟩ :
        MyCryptoStrategy.Row).volume := by
  have h : MyCryptoStrategy.enter_long
      ⟨9, 10, 9, 10, 1, 3, 2, 1, 70, 53, 52, 51, 0, 1, 9, 8, 8, 7⟩ = true := by
    unfold MyCryptoStrategy.enter_long MyCryptoStrategy.bull_candle
      MyCryptoStrategy.rsi_bullish MyCryptoStrategy.rsi_long
    norm_num
  exact ⟨Or.inl h,
    c7_crypto_entries_need_volume
      ⟨9, 10, 9, 10, 1, 3, 2, 1, 70, 53, 52, 51, 0, 1, 9, 8, 8, 7⟩
      (Or.inl h)⟩

/-- C8: for any single evaluation the long and short entry conditions
are mutually exclusive, in both strategies: the moving-average ordering
(`ema5 > ema20` for long versus `ema5 < ema20` for short) cannot hold
both ways at once. -/
theorem c8_entry_mutual_exclusion :
    ∀ (p : MyStrategy.Params) (b : MyStrategy.BarData)
      (snap : MyStrategy.Snapshot) (r : MyCryptoStrategy.Row),
      (MyStrategy.long_signal p b snap && MyStrategy.short_signal p b snap)
          = false ∧
        (MyCryptoStrategy.enter_long r && MyCryptoStrategy.enter_short r)
          = false := by
  intro p b snap r
  constructor
  · cases hA : MyStrategy.long_signal p b snap with
    | false => rfl
    | true =>
      have hgt : snap.ema5 > snap.ema20 := by
        unfold MyStrategy.long_signal at hA
        simp only [Bool.and_eq_true, decide_eq_true_eq] at hA
        exact hA.1.1
      have hs : MyStrategy.short_signal p b snap = false := by
        unfold MyStrategy.short_signal
        have hd : ¬(snap.ema5 < snap.ema20 ∧ snap.ema05 < snap.ema5 ∧
            snap.rsi14 < p.rsi_short ∧ b.close < b.prevLow ∧
            b.prevClose < b.prev2Close ∧ b.close < b.opn) := by
          rintro ⟨hlt, -⟩
          exact lt_asymm hgt hlt
        rw [decide_eq_false hd]
        rfl
      rw [hs]
      rfl
  · cases hA : MyCryptoStrategy.enter_long r with
    | false => rfl
    | true =>
      have hgt : r.ema5 > r.ema20 := by
        unfold MyCryptoStrategy.enter_long at hA
        simp only [Bool.and_eq_true, decide_eq_true_eq] at hA
        exact hA.1.1.1.1
      have hs : MyCryptoStrategy.enter_short r = false := by
        unfold MyCryptoStrategy.enter_short
        have hd : ¬(r.ema5 < r.ema20 ∧ r.ema05 < r.ema5 ∧
            r.rsi14 < MyCryptoStrategy.rsi_short ∧ r.close < r.prev_low ∧
            r.prev_close < r.prev2_close) := by
          rintro ⟨hlt, -⟩
          exact lt_asymm hgt hlt
        rw [decide_eq_false hd]
        rfl
      rw [hs]
      rfl

end Trading
